import Mathlib

/-!
Shallow embedding of the payload-normalization, event-classification and
pagination layer of the `pytwot` client library, together with theorems
checking its natural-language specification.

Python JSON payloads are modelled by `JVal`; Python `dict`s by ordered
association lists with first-match lookup and update-in-place assignment
(`pyGet` / `pySet`), matching CPython's insertion-ordered dictionaries.
A Python function that can raise is modelled as returning an `Option`
(or a result paired with an explicit error component where the claim
needs to distinguish which exception was raised).
-/

/-- Model of a Python JSON-ish value as it flows through the library.
`jfail` is the class `object` that `pytwot.utils.convert` returns when a
conversion raises: it is a value of the dynamic language, distinct from
every integer, string, list and mapping. -/
inductive JVal where
  | jnull
  | jbool (b : Bool)
  | jint (n : Int)
  | jstr (s : String)
  | jarr (items : List JVal)
  | jobj (fields : List (String × JVal))
  | jfail
  deriving Repr

mutual

def JVal.decEq : (a b : JVal) → Decidable (a = b)
  | .jnull, .jnull => isTrue rfl
  | .jfail, .jfail => isTrue rfl
  | .jbool x, .jbool y =>
    if h : x = y then isTrue (by rw [h]) else isFalse (fun hh => h (by cases hh; rfl))
  | .jint x, .jint y =>
    if h : x = y then isTrue (by rw [h]) else isFalse (fun hh => h (by cases hh; rfl))
  | .jstr x, .jstr y =>
    if h : x = y then isTrue (by rw [h]) else isFalse (fun hh => h (by cases hh; rfl))
  | .jarr xs, .jarr ys =>
    match JVal.decEqList xs ys with
    | isTrue h => isTrue (by rw [h])
    | isFalse h => isFalse (fun hh => h (by cases hh; rfl))
  | .jobj xs, .jobj ys =>
    match JVal.decEqFields xs ys with
    | isTrue h => isTrue (by rw [h])
    | isFalse h => isFalse (fun hh => h (by cases hh; rfl))
  | .jnull, .jbool _ | .jnull, .jint _ | .jnull, .jstr _ | .jnull, .jarr _
  | .jnull, .jobj _ | .jnull, .jfail
  | .jbool _, .jnull | .jbool _, .jint _ | .jbool _, .jstr _ | .jbool _, .jarr _
  | .jbool _, .jobj _ | .jbool _, .jfail
  | .jint _, .jnull | .jint _, .jbool _ | .jint _, .jstr _ | .jint _, .jarr _
  | .jint _, .jobj _ | .jint _, .jfail
  | .jstr _, .jnull | .jstr _, .jbool _ | .jstr _, .jint _ | .jstr _, .jarr _
  | .jstr _, .jobj _ | .jstr _, .jfail
  | .jarr _, .jnull | .jarr _, .jbool _ | .jarr _, .jint _ | .jarr _, .jstr _
  | .jarr _, .jobj _ | .jarr _, .jfail
  | .jobj _, .jnull | .jobj _, .jbool _ | .jobj _, .jint _ | .jobj _, .jstr _
  | .jobj _, .jarr _ | .jobj _, .jfail
  | .jfail, .jnull | .jfail, .jbool _ | .jfail, .jint _ | .jfail, .jstr _
  | .jfail, .jarr _ | .jfail, .jobj _ =>
    isFalse (fun h => by cases h)

def JVal.decEqList : (a b : List JVal) → Decidable (a = b)
  | [], [] => isTrue rfl
  | [], _ :: _ => isFalse (fun h => by cases h)
  | _ :: _, [] => isFalse (fun h => by cases h)
  | x :: xs, y :: ys =>
    match JVal.decEq x y, JVal.decEqList xs ys with
    | isTrue h1, isTrue h2 => isTrue (by rw [h1, h2])
    | isFalse h1, _ => isFalse (fun h => h1 (by cases h; rfl))
    | isTrue _, isFalse h2 => isFalse (fun h => h2 (by cases h; rfl))

def JVal.decEqFields : (a b : List (String × JVal)) → Decidable (a = b)
  | [], [] => isTrue rfl
  | [], _ :: _ => isFalse (fun h => by cases h)
  | _ :: _, [] => isFalse (fun h => by cases h)
  | (k, v) :: xs, (k', v') :: ys =>
    match String.decEq k k', JVal.decEq v v', JVal.decEqFields xs ys with
    | isTrue h0, isTrue h1, isTrue h2 => isTrue (by rw [h0, h1, h2])
    | isFalse h0, _, _ => isFalse (fun h => h0 (by cases h; rfl))
    | isTrue _, isFalse h1, _ => isFalse (fun h => h1 (by cases h; rfl))
    | isTrue _, isTrue _, isFalse h2 => isFalse (fun h => h2 (by cases h; rfl))

end

instance : DecidableEq JVal := JVal.decEq

/-- A Python dict with string keys: an insertion-ordered association list. -/
def JObj : Type := List (String × JVal)

instance : DecidableEq JObj :=
  inferInstanceAs (DecidableEq (List (String × JVal)))

instance : Inhabited JObj := ⟨([] : List (String × JVal))⟩

instance : Repr JObj :=
  inferInstanceAs (Repr (List (String × JVal)))

/-- First-match lookup, the semantics of `d.get(k)` on a dict without
duplicate keys (a real Python dict never has duplicates; on lists with
duplicates the first entry shadows the rest). -/
def pyGet {α β : Type _} [DecidableEq α] : List (α × β) → α → Option β
  | [], _ => none
  | (k', v') :: rest, k => if k' = k then some v' else pyGet rest k

/-- Dict assignment `d[k] = v`: replaces the value at the first occurrence
of `k`, keeping its position, and appends `(k, v)` when `k` is absent —
CPython's insertion-order-preserving update. -/
def pySet {α β : Type _} [DecidableEq α] : List (α × β) → α → β → List (α × β)
  | [], k, v => [(k, v)]
  | (k', v') :: rest, k, v =>
    if k' = k then (k', v) :: rest else (k', v') :: pySet rest k v

/-- Python truthiness of a `JVal`: `None`, `0`, `""`, `[]` and `{}` are
falsy; every other value (including the `object` sentinel) is truthy. -/
def pyTruthy : JVal → Bool
  | .jnull => false
  | .jbool b => b
  | .jint n => n != 0
  | .jstr s => s != ""
  | .jarr items => !items.isEmpty
  | .jobj fields => !fields.isEmpty
  | .jfail => true

/-- Python `int(...)` on a decimal string: surrounding whitespace, an
optional single sign, then one or more digits. (Underscore digit
separators are not modelled.) `none` models a raised `ValueError`. -/
def pyIntOfString (s : String) : Option Int :=
  let core := ((s.toList.dropWhile Char.isWhitespace).reverse.dropWhile Char.isWhitespace).reverse
  let signed : Bool × List Char :=
    match core with
    | '-' :: rest => (true, rest)
    | '+' :: rest => (false, rest)
    | other => (false, other)
  let ds := signed.2
  if ds ≠ [] ∧ ds.all Char.isDigit then
    let n : Nat := ds.foldl (fun a c => a * 10 + (c.toNat - '0'.toNat)) 0
    some (if signed.1 then -(n : Int) else (n : Int))
  else none

/-- Python `int(v)` on a dynamic value: identity on ints, `True`/`False`
become `1`/`0`, strings are parsed, and everything else raises
(`none` models the raised `TypeError`/`ValueError`). -/
def pyInt : JVal → Option Int
  | .jint n => some n
  | .jbool b => some (if b then 1 else 0)
  | .jstr s => pyIntOfString s
  | _ => none

theorem pyGet_pySet_self {α β : Type _} [DecidableEq α]
    (l : List (α × β)) (k : α) (v : β) : pyGet (pySet l k v) k = some v := by
  induction l with
  | nil => simp [pySet, pyGet]
  | cons hd tl ih =>
    by_cases h : hd.1 = k
    · simp [pySet, pyGet, h]
    · simp [pySet, pyGet, h, ih]

theorem pyGet_pySet_other {α β : Type _} [DecidableEq α]
    (l : List (α × β)) (k k' : α) (v : β) (hne : k ≠ k') :
    pyGet (pySet l k v) k' = pyGet l k' := by
  induction l with
  | nil => simp [pySet, pyGet, hne]
  | cons hd tl ih =>
    by_cases h : hd.1 = k
    · simp [pySet, pyGet, h, hne]
    · simp [pySet, pyGet, h, ih]

/-! ### PayloadParser (src/pytwot/parser.py)

Each method takes the raw payload dict; a method that can raise returns
an `Option`. `parse_user_payload` copies its argument first and writes
only into the copy; `parse_tweet_payload` writes into the argument
itself and returns that same object. -/

namespace PayloadParser

/-- Keys of a dict in insertion order, `list(d.keys())`. -/
def objKeys (o : JObj) : List String := o.map Prod.fst

/-- The `public_metrics` dict literal that `parse_user_payload` builds
from the legacy flat counters of `payload` (absent counters read as
`None` via `.get`). -/
def userMetricsOf (payload : JObj) : JVal :=
  .jobj
    [("followers_count", (pyGet payload "followers_count").getD .jnull),
     ("following_count", (pyGet payload "friends_count").getD .jnull),
     ("tweet_count", (pyGet payload "statuses_count").getD .jnull),
     ("listed_count", .jint 0)]

/-- `PayloadParser.parse_user_payload`: copies the payload, attaches the
`public_metrics` sub-dict built from the legacy counters, then mirrors
`created_timestamp`/`screen_name`/`profile_image_url_https` into their
v2 names when present. All writes target the copy. -/
def parse_user_payload (payload : JObj) : JObj :=
  let copy := pySet payload "public_metrics" (userMetricsOf payload)
  let copy :=
    if (pyGet copy "created_timestamp").isSome then
      pySet copy "created_at" ((pyGet copy "created_timestamp").getD .jnull)
    else copy
  let copy :=
    if (pyGet copy "screen_name").isSome then
      pySet copy "username" ((pyGet copy "screen_name").getD .jnull)
    else copy
  let copy :=
    if (pyGet copy "profile_image_url_https").isSome then
      pySet copy "profile_image_url" ((pyGet copy "profile_image_url_https").getD .jnull)
    else copy
  copy

/-- State-transformer view of `parse_user_payload`: final state of the
argument object paired with the return value. The source's first
statement is `copy = payload.copy()` and every subsequent write targets
`copy`, so the argument's final state is the argument itself. -/
def parse_user_payload_st (payload : JObj) : JObj × JObj :=
  (payload, parse_user_payload payload)

/-- The `public_metrics` dict literal that `parse_tweet_payload` builds
from the legacy flat counters of `payload`. -/
def tweetMetricsOf (payload : JObj) : JVal :=
  .jobj
    [("quote_count", (pyGet payload "quote_count").getD .jnull),
     ("reply_count", (pyGet payload "reply_count").getD .jnull),
     ("retweet_count", (pyGet payload "retweet_count").getD .jnull),
     ("like_count", (pyGet payload "favorite_count").getD .jnull)]

/-- `PayloadParser.parse_tweet_payload`: writes `public_metrics`,
`includes` (with the `mentions` list pulled from
`entities.user_mentions`), mirrors `timestamp_ms` into `timestamp` when
present, and normalizes an embedded `user` into `includes.users[0]`.
There is no `.copy()`: every write goes into the argument dict itself
and that same dict is returned. `none` models a raised exception
(absent/non-mapping `entities`, non-list `user_mentions`, a non-mapping
mention entry, or a non-mapping embedded `user`). -/
def parse_tweet_payload (payload : JObj) : Option JObj :=
  let p1 := pySet payload "public_metrics" (tweetMetricsOf payload)
  let p2 := pySet p1 "includes" (.jobj [])
  match (pyGet p2 "entities").getD .jnull with
  | .jobj ent =>
    match (pyGet ent "user_mentions").getD .jnull with
    | .jarr mentions =>
      match mentions.mapM (fun u =>
          match u with
          | .jobj uo => some ((pyGet uo "screen_name").getD .jnull)
          | _ => none) with
      | none => none
      | some names =>
        let p3 := pySet p2 "includes" (.jobj [("mentions", .jarr names)])
        let p4 :=
          if (pyGet p3 "timestamp_ms").isSome then
            pySet p3 "timestamp" ((pyGet p3 "timestamp_ms").getD .jnull)
          else p3
        match pyGet p4 "user" with
        | none => some p4
        | some (.jobj uo) =>
          let incl := match (pyGet p4 "includes").getD .jnull with
            | .jobj fields => fields
            | _ => []
          some (pySet p4 "includes"
            (.jobj (pySet incl "users" (.jarr [.jobj (parse_user_payload uo)]))))
        | some _ => none
    | _ => none
  | _ => none

/-- State-transformer view of `parse_tweet_payload`: the source returns
the very dict it received and mutated, so on success the argument's
final state and the return value are one and the same object. -/
def parse_tweet_payload_st (payload : JObj) : Option (JObj × JObj) :=
  (parse_tweet_payload payload).map (fun q => (q, q))

/-- The author expression of `insert_pagination_object_author`:
`payload.get("includes", {}).get("users", [None])[0]`. `none` models a
raised exception (indexing an empty `users` list, or `includes`/`users`
of the wrong shape). -/
def paginationAuthor (payload : JObj) : Option JVal :=
  match pyGet payload "includes" with
  | none => some .jnull
  | some (.jobj incl) =>
    match pyGet incl "users" with
    | none => some .jnull
    | some (.jarr users) => users.head?
    | some _ => none
  | some _ => none

/-- One wrapper built by the loop body of
`insert_pagination_object_author`:
`{"data": item, "includes": {"users": [author]}}`. -/
def paginationWrapper (author item : JVal) : JObj :=
  [("data", item), ("includes", .jobj [("users", .jarr [author])])]

/-- `PayloadParser.insert_pagination_object_author`: for every entry of
`payload["data"]` emits one wrapper carrying that entry and the single
page author. `none` models a raised exception (`data` absent or not a
list — the page payloads this runs on carry their items in a `data`
list — or the author expression raising). -/
def insert_pagination_object_author (payload : JObj) : Option (List JObj) :=
  match pyGet payload "data" with
  | some (.jarr items) =>
    items.mapM (fun item => (paginationAuthor payload).map (fun a => paginationWrapper a item))
  | _ => none

/-- `pytwot.utils.convert` applied with `annotations = int`: returns
`int(o)` when that succeeds and the class `object` (modelled by
`JVal.jfail`) when `int(o)` raises `ValueError`/`TypeError`. -/
def convert (o : JVal) : JVal :=
  match pyInt o with
  | some n => .jint n
  | none => .jfail

/-- `PayloadParser.parse_metric_data`: builds a fresh dict assigning
`convert(v, int)` under every key of the payload, in order. -/
def parse_metric_data (payload : JObj) : JObj :=
  payload.foldl (fun d kv => pySet d kv.1 (convert kv.2)) []

end PayloadParser

/-! ### Event classification (src/pytwot/events.py, src/pytwot/parser.py) -/

/-- The constructor body of `Event.__init__`:
`self._type = list(data.keys())[1]` and
`self._payload = data.get(self._type)[0]`. Returns the `(type, payload)`
pair; `none` models a raised exception (fewer than two keys, or the
value under the second key not being an indexable list, or that list
being empty). -/
def Event.init (data : JObj) : Option (String × JVal) :=
  match (PayloadParser.objKeys data).get? 1 with
  | none => none
  | some t =>
    match (pyGet data t).getD .jnull with
    | .jarr xs => (xs.get? 0).map (fun b => (t, b))
    | _ => none

/-- Modelled from the spec: the domain `Tweet` object is out of scope
"beyond its identity/id contract"; its class is not among the source
files. It carries a numeric id, plus the `deleted_timestamp` attribute
that `EventParser.parse_tweet_delete` writes on the cached entity. -/
structure Tweet where
  id : Int
  deleted_timestamp : Option Int := none
  deriving Repr, DecidableEq

/-- Modelled from the spec: the `Message` placeholder produced by
`EventParser.parse_tweet_delete` on a cache miss — "a degraded
placeholder event carrying only the tweet id, not a full entity". The
source constructs it as `Message(None, tweet_id, 1)`. -/
structure Message where
  text : Option JVal
  id : JVal
  event_kind : Nat
  deriving Repr, DecidableEq

/-- What `parse_tweet_delete` hands to `dispatch`: either the degraded
placeholder or the full cached tweet. -/
inductive TweetDeleteDispatch where
  | placeholder (m : Message)
  | full (t : Tweet)
  deriving Repr, DecidableEq

/-- `EventParser.parse_tweet_delete`: reads
`tweet_delete_events[0].status.id`, looks the int id up in the tweet
cache, and dispatches on the `"tweet_delete"` channel either a degraded
`Message(None, tweet_id, 1)` (cache miss) or the cached tweet with its
`deleted_timestamp` attached (cache hit, which also pops the cache
entry). The returned pair is the `(channel, event)` handed to
`dispatch`; `none` models a raised exception. -/
def parse_tweet_delete (tweet_cache : Int → Option Tweet) (payload : JObj) :
    Option (String × TweetDeleteDispatch) :=
  match (pyGet payload "tweet_delete_events").getD .jnull with
  | .jarr evs =>
    match evs.get? 0 with
    | some (.jobj ep) =>
      match (pyGet ep "status").getD .jnull with
      | .jobj st =>
        let tweet_id := (pyGet st "id").getD .jnull
        match pyInt tweet_id with
        | some tid =>
          match tweet_cache tid with
          | none => some ("tweet_delete", .placeholder ⟨none, tweet_id, 1⟩)
          | some tweet =>
            match pyInt ((pyGet ep "timestamp_ms").getD .jnull) with
            | some ts => some ("tweet_delete", .full { tweet with deleted_timestamp := some ts })
            | none => none
        | none => none
      | _ => none
    | some _ => none
    | none => none
  | _ => none

/-! ### Pagination (src/pytwot/paginations.py)

`UserPagination` is embedded with its full mutable state. The injected
HTTP transport is a parameter `fetch`; a step returns the object's final
state, which exception (if any) was raised, and the list of parameter
dicts passed to `fetch` during the call. -/

/-- Modelled from the spec: the domain `User` object is out of scope
"beyond its identity/id contract"; its class is not among the source
files. It is built from one raw page item and exposes `id`. -/
structure User where
  raw : JVal
  deriving Repr, DecidableEq

/-- Modelled from the spec: the user's id, read from the raw item per
the identity/id contract. -/
def User.id (u : User) : JVal :=
  match u.raw with
  | .jobj fields => (pyGet fields "id").getD .jnull
  | _ => .jnull

/-- Modelled from the spec: Python `==` between two domain objects
compares their ids (the library's `Comparable` identity contract). -/
def User.pyEq (a b : User) : Bool := a.id == b.id

/-- Which exception a pagination step raised: `NoPageAvailable`, or any
other Python exception (`TypeError`/`AttributeError`/`IndexError` from
malformed payloads). -/
inductive PagErr where
  | noPage
  | pyError
  deriving Repr, DecidableEq

/-- The mutable state of a `UserPagination` object (`Pagination.__slots__`). -/
structure UPState where
  original_payload : JObj
  payload : JVal
  meta : JVal
  next_token : JVal
  previous_token : JVal
  count : Nat
  paginate_over : Nat
  current_page_number : Int
  params : JObj
  pages_cache : List (Nat × List (JVal × User))
  deriving Repr, DecidableEq

/-- The `content` property: `[User(data) for data in self.payload]`.
`none` models the raise when `self.payload` is not a list of items. -/
def UPState.content (s : UPState) : Option (List User) :=
  match s.payload with
  | .jarr items => some (items.map User.mk)
  | _ => none

/-- The dict comprehension `{user.id: user for user in content}`. -/
def userDict (users : List User) : List (JVal × User) :=
  users.foldl (fun d u => pySet d u.id u) []

/-- Result of one `next_page`/`previous_page` call: final object state,
raised exception if any, and the parameter dicts passed to the
injected fetch function. -/
structure StepOut where
  state : UPState
  err : Option PagErr
  fetch_calls : List JObj
  deriving Repr, DecidableEq

namespace UserPagination

/-- `Pagination.__init__` for `UserPagination`: reads `data`/`meta` and
the two tokens from the first page's payload, starts at page number 1,
and seeds `pages_cache[1]` from `content`. `none` models a raised
exception (missing/non-mapping `meta`, or `content` failing). -/
def init (data : JObj) (params : JObj) : Option UPState :=
  let payload := (pyGet data "data").getD .jnull
  match (pyGet data "meta").getD .jnull with
  | .jobj m =>
    let s : UPState := {
      original_payload := data
      payload := payload
      meta := .jobj m
      next_token := (pyGet m "next_token").getD .jnull
      previous_token := (pyGet m "previous_token").getD .jnull
      count := 0
      paginate_over := 0
      current_page_number := 1
      params := params
      pages_cache := [] }
    match s.content with
    | some c => some { s with pages_cache := [(1, userDict c)] }
    | none => none
  | _ => none

/-- `UserPagination.next_page`: raises `NoPageAvailable` without calling
the transport when the next token is falsy; writes the token into
`params`, fetches, raises `NoPageAvailable` on a falsy response;
otherwise increments the page number, replaces payload/meta/tokens from
the response and — only when the new first item differs from the
previous first item — appends a cache entry under key
`len(pages_cache) + 1`. Mutations are applied in source order, so a
later exception leaves the earlier writes in place. -/
def next_page (fetch : JObj → Option JObj) (s : UPState) : StepOut :=
  if pyTruthy s.next_token = false then ⟨s, some .noPage, []⟩
  else
    let params := pySet s.params "pagination_token" s.next_token
    let s1 : UPState := { s with params := params }
    match fetch params with
    | none => ⟨s1, some .noPage, [params]⟩
    | some res =>
      if res.isEmpty then ⟨s1, some .noPage, [params]⟩
      else
        match s1.content with
        | none => ⟨s1, some .pyError, [params]⟩
        | some previous_content =>
          let s2 : UPState := { s1 with
            current_page_number := s1.current_page_number + 1
            original_payload := res
            payload := (pyGet res "data").getD .jnull
            meta := (pyGet res "meta").getD .jnull }
          match (pyGet res "meta").getD .jnull with
          | .jobj m =>
            let s3 : UPState := { s2 with
              next_token := (pyGet m "next_token").getD .jnull
              previous_token := (pyGet m "previous_token").getD .jnull
              count := 0 }
            match s3.content with
            | none => ⟨s3, some .pyError, [params]⟩
            | some new_content =>
              match previous_content.head?, new_content.head? with
              | some p0, some n0 =>
                if User.pyEq p0 n0 then ⟨s3, none, [params]⟩
                else
                  ⟨{ s3 with pages_cache := pySet s3.pages_cache (s3.pages_cache.length + 1) (userDict new_content) },
                    none, [params]⟩
              | _, _ => ⟨s3, some .pyError, [params]⟩
          | _ => ⟨s2, some .pyError, [params]⟩

/-- `UserPagination.previous_page`: symmetric to `next_page`, keyed on
the previous token and decrementing the page number (with no lower
bound in the source). -/
def previous_page (fetch : JObj → Option JObj) (s : UPState) : StepOut :=
  if pyTruthy s.previous_token = false then ⟨s, some .noPage, []⟩
  else
    let params := pySet s.params "pagination_token" s.previous_token
    let s1 : UPState := { s with params := params }
    match fetch params with
    | none => ⟨s1, some .noPage, [params]⟩
    | some res =>
      if res.isEmpty then ⟨s1, some .noPage, [params]⟩
      else
        match s1.content with
        | none => ⟨s1, some .pyError, [params]⟩
        | some previous_content =>
          let s2 : UPState := { s1 with
            current_page_number := s1.current_page_number - 1
            original_payload := res
            payload := (pyGet res "data").getD .jnull
            meta := (pyGet res "meta").getD .jnull }
          match (pyGet res "meta").getD .jnull with
          | .jobj m =>
            let s3 : UPState := { s2 with
              next_token := (pyGet m "next_token").getD .jnull
              previous_token := (pyGet m "previous_token").getD .jnull
              count := 0 }
            match s3.content with
            | none => ⟨s3, some .pyError, [params]⟩
            | some new_content =>
              match previous_content.head?, new_content.head? with
              | some p0, some n0 =>
                if User.pyEq p0 n0 then ⟨s3, none, [params]⟩
                else
                  ⟨{ s3 with pages_cache := pySet s3.pages_cache (s3.pages_cache.length + 1) (userDict new_content) },
                    none, [params]⟩
              | _, _ => ⟨s3, some .pyError, [params]⟩
          | _ => ⟨s2, some .pyError, [params]⟩

end UserPagination

/-- One entry of a call sequence against a pagination object. -/
inductive PageCall where
  | next
  | prev
  deriving Repr, DecidableEq

/-- Dispatch one call of a sequence. -/
def UserPagination.step (fetch : JObj → Option JObj) : PageCall → UPState → StepOut
  | .next, s => UserPagination.next_page fetch s
  | .prev, s => UserPagination.previous_page fetch s

/-- Accumulated outcome of a call sequence: final state, how many
`next_page`/`previous_page` calls succeeded, and how many calls raised
something other than `NoPageAvailable`. -/
structure RunOut where
  state : UPState
  succ_next : Nat
  succ_prev : Nat
  py_errors : Nat
  deriving Repr, DecidableEq

/-- Run a call sequence against the object. An exception propagates to
the caller but leaves the object in its post-exception state, so the
run continues from that state (the caller may catch and carry on). -/
def UserPagination.run (fetch : JObj → Option JObj) : List PageCall → UPState → RunOut
  | [], s => ⟨s, 0, 0, 0⟩
  | c :: cs, s =>
    let out := UserPagination.step fetch c s
    let rest := UserPagination.run fetch cs out.state
    { state := rest.state
      succ_next := rest.succ_next + (match c, out.err with | .next, none => 1 | _, _ => 0)
      succ_prev := rest.succ_prev + (match c, out.err with | .prev, none => 1 | _, _ => 0)
      py_errors := rest.py_errors + (match out.err with | some .pyError => 1 | _ => 0) }

/-! ### Supporting lemmas -/

theorem mapM_option_some {α β : Type _} (l : List α) (f : α → β) :
    l.mapM (fun a => some (f a)) = some (l.map f) := by
  induction l with
  | nil => rfl
  | cons hd tl ih =>
    rw [List.mapM_cons, ih]
    rfl

theorem pyGet_map_value {α β γ : Type _} [DecidableEq α]
    (l : List (α × β)) (f : β → γ) (k : α) :
    pyGet (l.map (fun kv => (kv.1, f kv.2))) k = (pyGet l k).map f := by
  induction l with
  | nil => simp [pyGet]
  | cons hd tl ih =>
    by_cases h : hd.1 = k
    · simp [pyGet, h]
    · simp [pyGet, h, ih]

theorem pySet_eq_append {α β : Type _} [DecidableEq α]
    (l : List (α × β)) (k : α) (v : β) (h : k ∉ l.map Prod.fst) :
    pySet l k v = l ++ [(k, v)] := by
  induction l with
  | nil => rfl
  | cons hd tl ih =>
    simp only [List.map_cons, List.mem_cons] at h
    push_neg at h
    have h1 : ¬hd.1 = k := fun hh => h.1 hh.symm
    simp [pySet, h1, ih h.2]

/-! ### Theorems for the pagination claims -/

/-- Claim C1: with the next token absent, `next_page` raises
`NoPageAvailable` without invoking the injected fetch function and
leaves the state untouched; symmetrically for `previous_page` with the
previous token absent. -/
theorem c1_no_token_no_fetch (fetch : JObj → Option JObj) (s : UPState) :
    (s.next_token = .jnull →
      UserPagination.next_page fetch s = ⟨s, some .noPage, []⟩) ∧
    (s.previous_token = .jnull →
      UserPagination.previous_page fetch s = ⟨s, some .noPage, []⟩) := by
  constructor <;> intro h <;>
    simp [UserPagination.next_page, UserPagination.previous_page, h, pyTruthy]

/-- A cursor state with both tokens absent, used to instantiate C1. -/
def c1State : UPState := {
  original_payload := [("data", .jarr [])]
  payload := .jarr []
  meta := .jobj []
  next_token := .jnull
  previous_token := .jnull
  count := 0
  paginate_over := 0
  current_page_number := 1
  params := []
  pages_cache := [(1, [])] }

/-- Witness for C1 at a concrete cursor state and fetch stub. -/
theorem c1_no_token_no_fetch_witness :
    UserPagination.next_page (fun _ => none) c1State = ⟨c1State, some .noPage, []⟩ ∧
    UserPagination.previous_page (fun _ => none) c1State = ⟨c1State, some .noPage, []⟩ :=
  ⟨(c1_no_token_no_fetch (fun _ => none) c1State).1 rfl,
   (c1_no_token_no_fetch (fun _ => none) c1State).2 rfl⟩

/-! ### Theorems for the normalizer claims -/

/-- Claim C5: the normalized user payload carries a `public_metrics`
sub-mapping renaming the legacy counters — `followers_count` kept,
`friends_count` as `following_count`, `statuses_count` as
`tweet_count`, and the constant `0` as `listed_count`. -/
theorem c5_user_public_metrics (p : JObj) (v1 v2 v3 : JVal)
    (h1 : pyGet p "followers_count" = some v1)
    (h2 : pyGet p "friends_count" = some v2)
    (h3 : pyGet p "statuses_count" = some v3) :
    pyGet (PayloadParser.parse_user_payload p) "public_metrics" =
      some (.jobj [("followers_count", v1), ("following_count", v2),
                   ("tweet_count", v3), ("listed_count", .jint 0)]) := by
  unfold PayloadParser.parse_user_payload PayloadParser.userMetricsOf
  rw [h1, h2, h3]
  dsimp only
  split_ifs <;>
    simp [pyGet_pySet_self, pyGet_pySet_other, Option.getD]

/-- A concrete legacy user payload instantiating C5. -/
def c5Payload : JObj :=
  [("id", .jstr "7"), ("screen_name", .jstr "seng"),
   ("followers_count", .jint 5), ("friends_count", .jint 6),
   ("statuses_count", .jint 9)]

/-- Witness for C5 at a concrete legacy payload. -/
theorem c5_user_public_metrics_witness :
    pyGet (PayloadParser.parse_user_payload c5Payload) "public_metrics" =
      some (.jobj [("followers_count", .jint 5), ("following_count", .jint 6),
                   ("tweet_count", .jint 9), ("listed_count", .jint 0)]) :=
  c5_user_public_metrics c5Payload (.jint 5) (.jint 6) (.jint 9) rfl rfl rfl

/-- Claim C6: on a page payload whose `data` is a list and whose
`includes.users` has a first element, `insert_pagination_object_author`
yields one wrapper per item, in order, each carrying that single author. -/
theorem c6_broadcast_author (payload : JObj) (items : List JVal)
    (incl : List (String × JVal)) (u : JVal) (rest : List JVal)
    (hdata : pyGet payload "data" = some (.jarr items))
    (hincl : pyGet payload "includes" = some (.jobj incl))
    (husers : pyGet incl "users" = some (.jarr (u :: rest))) :
    PayloadParser.insert_pagination_object_author payload =
      some (items.map (PayloadParser.paginationWrapper u)) ∧
    (items.map (PayloadParser.paginationWrapper u)).length = items.length := by
  have hauthor : PayloadParser.paginationAuthor payload = some u := by
    simp [PayloadParser.paginationAuthor, hincl, husers]
  refine ⟨?_, List.length_map _ _⟩
  simp only [PayloadParser.insert_pagination_object_author, hdata, hauthor,
    Option.map_some']
  exact mapM_option_some items (fun item => PayloadParser.paginationWrapper u item)

/-- A concrete two-item page payload with one side-loaded author,
instantiating C6. -/
def c6Payload : JObj :=
  [("data", .jarr [.jobj [("id", .jstr "1")], .jobj [("id", .jstr "2")]]),
   ("includes", .jobj [("users", .jarr [.jobj [("id", .jstr "9")]])])]

/-- Witness for C6: both wrappers carry the page's single author. -/
theorem c6_broadcast_author_witness :
    PayloadParser.insert_pagination_object_author c6Payload =
      some ([.jobj [("id", .jstr "1")], .jobj [("id", .jstr "2")]].map
        (PayloadParser.paginationWrapper (.jobj [("id", .jstr "9")]))) ∧
    ([(.jobj [("id", .jstr "1")] : JVal), .jobj [("id", .jstr "2")]].map
        (PayloadParser.paginationWrapper (.jobj [("id", .jstr "9")]))).length = 2 :=
  c6_broadcast_author c6Payload _ _ (.jobj [("id", .jstr "9")]) [] rfl rfl rfl

/-- Folding dict assignments of fresh keys builds the mapped list. -/
theorem foldl_pySet_fresh (l acc : List (String × JVal))
    (h : (acc.map Prod.fst ++ l.map Prod.fst).Nodup) :
    l.foldl (fun d kv => pySet d kv.1 (PayloadParser.convert kv.2)) acc
      = acc ++ l.map (fun kv => (kv.1, PayloadParser.convert kv.2)) := by
  induction l generalizing acc with
  | nil => simp
  | cons hd tl ih =>
    rw [List.foldl_cons]
    have hsplit := List.nodup_append.mp (by simpa using h)
    have hk : hd.1 ∉ acc.map Prod.fst := by
      intro hmem
      exact absurd (List.mem_cons_self hd.1 (tl.map Prod.fst))
        (hsplit.2.2 hmem)
    rw [pySet_eq_append _ _ _ hk]
    rw [ih (acc ++ [(hd.1, PayloadParser.convert hd.2)]) (by simpa using h)]
    simp

/-- `parse_metric_data` on a genuine dict (no duplicate keys) maps
`convert` over the values key-by-key. -/
theorem parse_metric_data_eq_map (payload : JObj)
    (h : (payload.map Prod.fst).Nodup) :
    PayloadParser.parse_metric_data payload
      = payload.map (fun kv => (kv.1, PayloadParser.convert kv.2)) := by
  have := foldl_pySet_fresh payload [] (by simpa using h)
  simpa [PayloadParser.parse_metric_data] using this

/-- Claim C7: `parse_metric_data` keeps every key, replaces each value
convertible to an integer by that integer and each non-convertible
value by the fixed sentinel (the class `object`, modelled `jfail`),
never raises, and the sentinel is distinct from every integer. -/
theorem c7_metric_coercion (payload : JObj)
    (hnd : (payload.map Prod.fst).Nodup) :
    ((PayloadParser.parse_metric_data payload).map Prod.fst = payload.map Prod.fst) ∧
    (∀ k v n, pyGet payload k = some v → pyInt v = some n →
      pyGet (PayloadParser.parse_metric_data payload) k = some (.jint n)) ∧
    (∀ k v, pyGet payload k = some v → pyInt v = none →
      pyGet (PayloadParser.parse_metric_data payload) k = some .jfail) ∧
    (∀ n : Int, (JVal.jfail : JVal) ≠ .jint n) := by
  rw [parse_metric_data_eq_map payload hnd]
  refine ⟨?_, ?_, ?_, fun n h => JVal.noConfusion h⟩
  · simp [List.map_map, Function.comp_def]
  · intro k v n hv hn
    rw [pyGet_map_value, hv]
    simp [PayloadParser.convert, hn]
  · intro k v hv hn
    rw [pyGet_map_value, hv]
    simp [PayloadParser.convert, hn]

/-- The spec's worked example payload for metric coercion. -/
def c7Payload : JObj := [("a", .jstr "12"), ("b", .jstr "x")]

/-- Witness for C7: `{"a": "12", "b": "x"}` maps to
`{"a": 12, "b": <sentinel>}` and the sentinel is not `0`. -/
theorem c7_metric_coercion_witness :
    pyGet (PayloadParser.parse_metric_data c7Payload) "a" = some (.jint 12) ∧
    pyGet (PayloadParser.parse_metric_data c7Payload) "b" = some .jfail ∧
    (JVal.jfail : JVal) ≠ .jint 0 :=
  ⟨(c7_metric_coercion c7Payload (by decide)).2.1 "a" (.jstr "12") 12 rfl (by decide),
   (c7_metric_coercion c7Payload (by decide)).2.2.1 "b" (.jstr "x") rfl (by decide),
   (c7_metric_coercion c7Payload (by decide)).2.2.2 0⟩

/-! ### Theorems for the event-classification claims -/

/-- Claim C8: `Event.__init__` takes the mapping's key at position 1 as
the event family and element 0 of the array under that key as the event
body. -/
theorem c8_event_family (data : JObj) (k : String) (b : JVal) (rest : List JVal)
    (hkey : (PayloadParser.objKeys data)[1]? = some k)
    (hval : pyGet data k = some (.jarr (b :: rest))) :
    Event.init data = some (k, b) := by
  simp [Event.init, hkey, hval]

/-- A concrete webhook delivery: the wrapper field sits at position 0,
the event-family key at position 1. -/
def c8Payload : JObj :=
  [("for_user_id", .jstr "1"),
   ("follow_events", .jarr [.jobj [("type", .jstr "follow")]])]

/-- Witness for C8 at a concrete delivery payload. -/
theorem c8_event_family_witness :
    Event.init c8Payload = some ("follow_events", .jobj [("type", .jstr "follow")]) :=
  c8_event_family c8Payload "follow_events" (.jobj [("type", .jstr "follow")]) [] rfl rfl

/-- Claim C9: a tweet-delete delivery whose tweet id misses the tweet
cache dispatches, on the `"tweet_delete"` channel and without raising,
the degraded placeholder `Message(None, tweet_id, 1)` carrying only the
tweet id. -/
theorem c9_tweet_delete_degraded (cache : Int → Option Tweet) (payload : JObj)
    (ep st : List (String × JVal)) (evs : List JVal) (idv : JVal) (tid : Int)
    (hev : pyGet payload "tweet_delete_events" = some (.jarr (.jobj ep :: evs)))
    (hst : pyGet ep "status" = some (.jobj st))
    (hid : pyGet st "id" = some idv)
    (hint : pyInt idv = some tid)
    (hmiss : cache tid = none) :
    parse_tweet_delete cache payload =
      some ("tweet_delete", .placeholder ⟨none, idv, 1⟩) := by
  simp [parse_tweet_delete, hev, hst, hid, hint, hmiss]

/-- A concrete tweet-delete delivery for an uncached tweet id. -/
def c9Payload : JObj :=
  [("for_user_id", .jstr "1"),
   ("tweet_delete_events", .jarr
     [.jobj [("status", .jobj [("id", .jstr "42"), ("user_id", .jstr "7")]),
             ("timestamp_ms", .jstr "123")]])]

/-- Witness for C9 with an empty tweet cache. -/
theorem c9_tweet_delete_degraded_witness :
    parse_tweet_delete (fun _ => none) c9Payload =
      some ("tweet_delete", .placeholder ⟨none, .jstr "42", 1⟩) :=
  c9_tweet_delete_degraded (fun _ => none) c9Payload _ _ [] (.jstr "42") 42
    rfl rfl rfl (by decide) rfl

/-! ### Theorems for the normalizer purity claim -/

/-- A minimal tweet payload: `entities.user_mentions` present (as the
source requires) and none of the fields the normalizer writes. -/
def c10Payload : JObj := [("entities", .jobj [("user_mentions", .jarr [])])]

/-- Counterexample to claim C10: `parse_tweet_payload` succeeds on
`c10Payload` but the argument's final state differs from the input —
in particular `public_metrics` and `includes` fields have been written
into it. -/
theorem c10_counterexample :
    ((PayloadParser.parse_tweet_payload_st c10Payload).map Prod.fst).isSome = true ∧
    (PayloadParser.parse_tweet_payload_st c10Payload).map Prod.fst ≠ some c10Payload ∧
    ((PayloadParser.parse_tweet_payload_st c10Payload).map
      (fun r => ((pyGet r.1 "public_metrics").isSome,
                 (pyGet r.1 "includes").isSome))) = some (true, true) := by
  refine ⟨by decide, ?_, by decide⟩
  decide

theorem some_getD_of_isSome {α : Type _} (o : Option α) (d : α)
    (h : o.isSome = true) : some (o.getD d) = o := by
  cases o <;> simp_all

/-- Claim C10 as amended: `parse_user_payload` copies and leaves its
input unchanged, while `parse_tweet_payload` mutates its input in
place — on success the argument's final state is the returned mapping
itself, carrying the freshly written `public_metrics` built from the
input's legacy counters, an `includes` mapping holding the extracted
`mentions`, and — when the input has a `timestamp_ms` — a `timestamp`
field mirroring it. -/
theorem c10_amended_mutation :
    (∀ p : JObj, (PayloadParser.parse_user_payload_st p).1 = p) ∧
    (∀ (p q r : JObj), PayloadParser.parse_tweet_payload_st p = some (q, r) →
      q = r ∧
      pyGet q "public_metrics" = some (PayloadParser.tweetMetricsOf p) ∧
      (∃ fields, pyGet q "includes" = some (.jobj fields) ∧
        pyGet fields "mentions" ≠ none) ∧
      ((pyGet p "timestamp_ms").isSome = true →
        pyGet q "timestamp" = pyGet p "timestamp_ms")) := by
  constructor
  · intro p; rfl
  · intro p q r h
    simp only [PayloadParser.parse_tweet_payload_st, Option.map_eq_some'] at h
    obtain ⟨q0, hq, heq⟩ := h
    have hq1 : q = q0 ∧ r = q0 := by
      refine ⟨?_, ?_⟩ <;> cases heq <;> rfl
    obtain ⟨rfl, rfl⟩ := hq1
    refine ⟨rfl, ?_⟩
    simp only [PayloadParser.parse_tweet_payload] at hq
    repeat' split at hq
    all_goals (try simp_all)
    all_goals (subst hq)
    all_goals
      refine ⟨?_, ?_, ?_⟩ <;>
        simp_all [pyGet, pySet, pyGet_pySet_other, pyGet_pySet_self,
          some_getD_of_isSome]
    all_goals (rename_i hEnt; simp [← hEnt, pyGet])

/-! ### Page-number accounting for pagination call sequences -/

theorem next_page_err_none_page (fetch : JObj → Option JObj) (s : UPState)
    (out : StepOut) (hE : UserPagination.next_page fetch s = out)
    (h : out.err = none) :
    out.state.current_page_number = s.current_page_number + 1 := by
  simp only [UserPagination.next_page] at hE
  repeat' split at hE
  all_goals (cases hE; simp_all)

theorem next_page_err_noPage_page (fetch : JObj → Option JObj) (s : UPState)
    (out : StepOut) (hE : UserPagination.next_page fetch s = out)
    (h : out.err = some .noPage) :
    out.state.current_page_number = s.current_page_number := by
  simp only [UserPagination.next_page] at hE
  repeat' split at hE
  all_goals (cases hE; simp_all)

theorem previous_page_err_none_page (fetch : JObj → Option JObj) (s : UPState)
    (out : StepOut) (hE : UserPagination.previous_page fetch s = out)
    (h : out.err = none) :
    out.state.current_page_number = s.current_page_number - 1 := by
  simp only [UserPagination.previous_page] at hE
  repeat' split at hE
  all_goals (cases hE; simp_all)

theorem previous_page_err_noPage_page (fetch : JObj → Option JObj) (s : UPState)
    (out : StepOut) (hE : UserPagination.previous_page fetch s = out)
    (h : out.err = some .noPage) :
    out.state.current_page_number = s.current_page_number := by
  simp only [UserPagination.previous_page] at hE
  repeat' split at hE
  all_goals (cases hE; simp_all)

theorem run_page_formula (fetch : JObj → Option JObj) (calls : List PageCall)
    (s : UPState) (h : (UserPagination.run fetch calls s).py_errors = 0) :
    (UserPagination.run fetch calls s).state.current_page_number
      = s.current_page_number + (UserPagination.run fetch calls s).succ_next
        - (UserPagination.run fetch calls s).succ_prev := by
  induction calls generalizing s with
  | nil => simp [UserPagination.run]
  | cons c cs ih =>
    simp only [UserPagination.run] at h ⊢
    have hsplit := Nat.add_eq_zero.mp h
    have hrest := ih (UserPagination.step fetch c s).state hsplit.1
    cases c with
    | next =>
      cases he : (UserPagination.step fetch PageCall.next s).err with
      | none =>
        have hp := next_page_err_none_page fetch s _ rfl
          (by simpa [UserPagination.step] using he)
        simp only [UserPagination.step] at hp hrest ⊢
        simp [he, hp] at hrest ⊢
        omega
      | some e =>
        cases e with
        | noPage =>
          have hp := next_page_err_noPage_page fetch s _ rfl
            (by simpa [UserPagination.step] using he)
          simp only [UserPagination.step] at hp hrest ⊢
          simp [he, hp] at hrest ⊢
          omega
        | pyError =>
          rw [he] at hsplit
          simp at hsplit
    | prev =>
      cases he : (UserPagination.step fetch PageCall.prev s).err with
      | none =>
        have hp := previous_page_err_none_page fetch s _ rfl
          (by simpa [UserPagination.step] using he)
        simp only [UserPagination.step] at hp hrest ⊢
        simp [he, hp] at hrest ⊢
        omega
      | some e =>
        cases e with
        | noPage =>
          have hp := previous_page_err_noPage_page fetch s _ rfl
            (by simpa [UserPagination.step] using he)
          simp only [UserPagination.step] at hp hrest ⊢
          simp [he, hp] at hrest ⊢
          omega
        | pyError =>
          rw [he] at hsplit
          simp at hsplit

theorem init_inv (data params : JObj) (s : UPState)
    (h : UserPagination.init data params = some s) :
    s.payload = (pyGet data "data").getD .jnull ∧
    s.current_page_number = 1 ∧
    s.params = params ∧
    ∃ c, s.content = some c ∧ s.pages_cache = [(1, userDict c)] := by
  simp only [UserPagination.init] at h
  repeat' split at h
  all_goals (cases h)
  refine ⟨rfl, rfl, rfl, ?_⟩
  rename_i c heq
  exact ⟨c, by simpa [UPState.content] using heq, rfl⟩

/-- Counterexample to claim C4 as stated: a cursor built from a page-1
payload that carries a previous token; one successful `previous_page`
call leaves `current_page_number = 0 < 1`. -/
def c4Page1 : JObj :=
  [("data", .jarr [.jobj [("id", .jstr "1")]]),
   ("meta", .jobj [("previous_token", .jstr "p0")])]

/-- The page the fetch stub serves for the previous-token request. -/
def c4PrevPage : JObj :=
  [("data", .jarr [.jobj [("id", .jstr "0")]]),
   ("meta", .jobj [])]

/-- Fetch stub serving `c4PrevPage` for every request. -/
def c4Fetch : JObj → Option JObj := fun _ => some c4PrevPage

/-- Counterexample to claim C4: the constructed cursor's page number
drops to `0` after one successful (error-free) `previous_page` call. -/
theorem c4_counterexample :
    ((UserPagination.init c4Page1 []).map (fun s =>
      ((UserPagination.previous_page c4Fetch s).state.current_page_number,
       (UserPagination.previous_page c4Fetch s).err))) = some (0, none) := by
  decide

/-- Claim C4 as amended: `current_page_number` is 1 at construction and,
over any call sequence in which every call either succeeds or fails
with `NoPageAvailable`, it equals
`1 + #(successful next_page) - #(successful previous_page)` — an
integer that can drop below 1, since `previous_page` decrements without
a lower bound. -/
theorem c4_amended_page_number (fetch : JObj → Option JObj) (data params : JObj)
    (calls : List PageCall) (s0 : UPState)
    (hinit : UserPagination.init data params = some s0)
    (hnopy : (UserPagination.run fetch calls s0).py_errors = 0) :
    s0.current_page_number = 1 ∧
    (UserPagination.run fetch calls s0).state.current_page_number
      = 1 + (UserPagination.run fetch calls s0).succ_next
        - (UserPagination.run fetch calls s0).succ_prev := by
  have h1 := (init_inv data params s0 hinit).2.1
  refine ⟨h1, ?_⟩
  rw [run_page_formula fetch calls s0 hnopy, h1]

/-- The state `UserPagination.init c4Page1 []` produces. -/
def c4S0 : UPState := {
  original_payload := c4Page1
  payload := .jarr [.jobj [("id", .jstr "1")]]
  meta := .jobj [("previous_token", .jstr "p0")]
  next_token := .jnull
  previous_token := .jstr "p0"
  count := 0
  paginate_over := 0
  current_page_number := 1
  params := []
  pages_cache := [(1, userDict [User.mk (.jobj [("id", .jstr "1")])])] }

/-- Witness for the amended C4 on a one-call sequence whose single
successful `previous_page` takes the page number to `0`. -/
theorem c4_amended_page_number_witness :
    c4S0.current_page_number = 1 ∧
    (UserPagination.run c4Fetch [PageCall.prev] c4S0).state.current_page_number
      = 1 + (UserPagination.run c4Fetch [PageCall.prev] c4S0).succ_next
        - (UserPagination.run c4Fetch [PageCall.prev] c4S0).succ_prev :=
  c4_amended_page_number c4Fetch c4Page1 [] [PageCall.prev] c4S0 (by decide) (by decide)

/-- Claim C2: a successful `next_page` increments the page number,
replaces payload/meta/tokens from the response, and appends a cache
entry under key `len(pages_cache) + 1` exactly when the first item of
the new content differs (by id) from the first item of the preceding
page's content. -/
theorem c2_next_page_success (fetch : JObj → Option JObj) (s : UPState)
    (res : JObj) (m : List (String × JVal)) (prevItems newItems : List JVal)
    (p0 n0 : User)
    (htok : pyTruthy s.next_token = true)
    (hfetch : fetch (pySet s.params "pagination_token" s.next_token) = some res)
    (hres : res.isEmpty = false)
    (hpay : s.payload = .jarr prevItems)
    (hp0 : (prevItems.map User.mk).head? = some p0)
    (hdata : (pyGet res "data").getD .jnull = .jarr newItems)
    (hmeta : (pyGet res "meta").getD .jnull = .jobj m)
    (hn0 : (newItems.map User.mk).head? = some n0) :
    UserPagination.next_page fetch s = {
      state := { s with
        params := pySet s.params "pagination_token" s.next_token
        current_page_number := s.current_page_number + 1
        original_payload := res
        payload := .jarr newItems
        meta := .jobj m
        next_token := (pyGet m "next_token").getD .jnull
        previous_token := (pyGet m "previous_token").getD .jnull
        count := 0
        pages_cache := if p0.id = n0.id then s.pages_cache
          else pySet s.pages_cache (s.pages_cache.length + 1)
            (userDict (newItems.map User.mk)) }
      err := none
      fetch_calls := [pySet s.params "pagination_token" s.next_token] } := by
  simp only [UserPagination.next_page, UPState.content, htok, hfetch, hres,
    hpay, hdata, hmeta, hp0, hn0]
  simp only [User.pyEq, beq_iff_eq]
  split_ifs <;> first | rfl | simp_all

/-- A concrete page-1 cursor state with a next token, for the C2 witness. -/
def c2S : UPState := {
  original_payload := [("data", .jarr [.jobj [("id", .jstr "10")]]),
                       ("meta", .jobj [("next_token", .jstr "n1")])]
  payload := .jarr [.jobj [("id", .jstr "10")]]
  meta := .jobj [("next_token", .jstr "n1")]
  next_token := .jstr "n1"
  previous_token := .jnull
  count := 0
  paginate_over := 0
  current_page_number := 1
  params := []
  pages_cache := [(1, userDict [User.mk (.jobj [("id", .jstr "10")])])] }

/-- The second page served for the C2 witness. -/
def c2Res : JObj :=
  [("data", .jarr [.jobj [("id", .jstr "20")]]),
   ("meta", .jobj [("previous_token", .jstr "p1")])]

/-- Fetch stub serving `c2Res` for every request. -/
def c2Fetch : JObj → Option JObj := fun _ => some c2Res

/-- Witness for C2 at a concrete successful `next_page` call. -/
theorem c2_next_page_success_witness :
    UserPagination.next_page c2Fetch c2S = {
      state := { c2S with
        params := pySet c2S.params "pagination_token" c2S.next_token
        current_page_number := c2S.current_page_number + 1
        original_payload := c2Res
        payload := .jarr [.jobj [("id", .jstr "20")]]
        meta := .jobj [("previous_token", .jstr "p1")]
        next_token := (pyGet [("previous_token", .jstr "p1")] "next_token").getD .jnull
        previous_token := (pyGet [("previous_token", .jstr "p1")] "previous_token").getD .jnull
        count := 0
        pages_cache := if (User.mk (.jobj [("id", .jstr "10")])).id
            = (User.mk (.jobj [("id", .jstr "20")])).id
          then c2S.pages_cache
          else pySet c2S.pages_cache (c2S.pages_cache.length + 1)
            (userDict ([(.jobj [("id", .jstr "20")] : JVal)].map User.mk)) }
      err := none
      fetch_calls := [pySet c2S.params "pagination_token" c2S.next_token] } :=
  c2_next_page_success c2Fetch c2S c2Res [("previous_token", .jstr "p1")]
    [.jobj [("id", .jstr "10")]] [.jobj [("id", .jstr "20")]]
    (User.mk (.jobj [("id", .jstr "10")])) (User.mk (.jobj [("id", .jstr "20")]))
    rfl rfl rfl rfl rfl rfl rfl rfl

theorem previous_page_ok_inv (fetch : JObj → Option JObj) (s : UPState)
    (out : StepOut) (hE : UserPagination.previous_page fetch s = out)
    (h : out.err = none) :
    ∃ res : JObj,
      fetch (pySet s.params "pagination_token" s.previous_token) = some res ∧
      out.state.payload = (pyGet res "data").getD .jnull := by
  simp only [UserPagination.previous_page] at hE
  repeat' split at hE
  all_goals (cases hE)
  all_goals (try (simp at h))
  all_goals (refine ⟨_, ?_, rfl⟩; assumption)

/-- Claim C3: from a page-1 cursor with a next token, when the fetch
stub serves some second page for the next-token request and page 1's
original payload for the following previous-token request, calling
`next_page` then `previous_page` leaves `content` decoding to items
with the same set of ids as the original page-1 content. -/
theorem c3_round_trip (fetch : JObj → Option JObj) (page1 params page2 : JObj)
    (s0 : UPState)
    (hinit : UserPagination.init page1 params = some s0)
    (hfetch2 : fetch (pySet s0.params "pagination_token" s0.next_token) = some page2)
    (hnext : (UserPagination.next_page fetch s0).err = none)
    (hfetch1 : fetch (pySet (UserPagination.next_page fetch s0).state.params
        "pagination_token"
        (UserPagination.next_page fetch s0).state.previous_token) = some page1)
    (hprevok : (UserPagination.previous_page fetch
        (UserPagination.next_page fetch s0).state).err = none) :
    ∃ c0 c2,
      s0.content = some c0 ∧
      (UserPagination.previous_page fetch
        (UserPagination.next_page fetch s0).state).state.content = some c2 ∧
      (∀ i : JVal, i ∈ c2.map User.id ↔ i ∈ c0.map User.id) := by
  obtain ⟨hpay0, _, _, c0, hc0, _⟩ := init_inv page1 params s0 hinit
  obtain ⟨res, hres, hpayload⟩ :=
    previous_page_ok_inv fetch (UserPagination.next_page fetch s0).state _ rfl hprevok
  rw [hres] at hfetch1
  have hres1 : res = page1 := by
    injection hfetch1
  subst hres1
  have hsame : (UserPagination.previous_page fetch
      (UserPagination.next_page fetch s0).state).state.content = s0.content := by
    unfold UPState.content
    rw [hpayload, hpay0]
  exact ⟨c0, c0, hc0, by rw [hsame, hc0], fun i => Iff.rfl⟩

/-- Page 1 for the C3 witness. -/
def c3Page1 : JObj :=
  [("data", .jarr [.jobj [("id", .jstr "10")]]),
   ("meta", .jobj [("next_token", .jstr "n1")])]

/-- Page 2 for the C3 witness, pointing back at page 1. -/
def c3Page2 : JObj :=
  [("data", .jarr [.jobj [("id", .jstr "20")]]),
   ("meta", .jobj [("previous_token", .jstr "p1")])]

/-- Fetch stub for the C3 witness: the next-token request yields page
2, the previous-token request yields page 1's original payload. -/
def c3Fetch : JObj → Option JObj := fun ps =>
  match pyGet ps "pagination_token" with
  | some (.jstr "n1") => some c3Page2
  | some (.jstr "p1") => some c3Page1
  | _ => none

/-- The state `UserPagination.init c3Page1 []` produces. -/
def c3S0 : UPState := {
  original_payload := c3Page1
  payload := .jarr [.jobj [("id", .jstr "10")]]
  meta := .jobj [("next_token", .jstr "n1")]
  next_token := .jstr "n1"
  previous_token := .jnull
  count := 0
  paginate_over := 0
  current_page_number := 1
  params := []
  pages_cache := [(1, userDict [User.mk (.jobj [("id", .jstr "10")])])] }

/-- Witness for C3 at a concrete two-page round trip. -/
theorem c3_round_trip_witness :
    ∃ c0 c2,
      c3S0.content = some c0 ∧
      (UserPagination.previous_page c3Fetch
        (UserPagination.next_page c3Fetch c3S0).state).state.content = some c2 ∧
      (∀ i : JVal, i ∈ c2.map User.id ↔ i ∈ c0.map User.id) :=
  c3_round_trip c3Fetch c3Page1 [] c3Page2 c3S0
    (by decide) (by decide) (by decide) (by decide) (by decide)

/-- A tweet payload that also carries a `timestamp_ms`, so the
conditional `timestamp` write fires. -/
def c10PayloadTs : JObj :=
  [("entities", .jobj [("user_mentions", .jarr [])]),
   ("timestamp_ms", .jstr "99")]

/-- The dict `parse_tweet_payload` returns (and leaves as the final
state of its argument) on `c10PayloadTs`. -/
def c10QTs : JObj :=
  [("entities", .jobj [("user_mentions", .jarr [])]),
   ("timestamp_ms", .jstr "99"),
   ("public_metrics", .jobj [("quote_count", .jnull), ("reply_count", .jnull),
     ("retweet_count", .jnull), ("like_count", .jnull)]),
   ("includes", .jobj [("mentions", .jarr [])]),
   ("timestamp", .jstr "99")]

/-- Witness for the amended C10 at a concrete tweet payload with a
`timestamp_ms`, exercising all three asserted writes. -/
theorem c10_amended_mutation_witness :
    (PayloadParser.parse_user_payload_st c10Payload).1 = c10Payload ∧
    (c10QTs = c10QTs ∧
      pyGet c10QTs "public_metrics" = some (PayloadParser.tweetMetricsOf c10PayloadTs) ∧
      (∃ fields, pyGet c10QTs "includes" = some (.jobj fields) ∧
        pyGet fields "mentions" ≠ none) ∧
      ((pyGet c10PayloadTs "timestamp_ms").isSome = true →
        pyGet c10QTs "timestamp" = pyGet c10PayloadTs "timestamp_ms")) ∧
    pyGet c10QTs "timestamp" = pyGet c10PayloadTs "timestamp_ms" :=
  ⟨c10_amended_mutation.1 c10Payload,
   c10_amended_mutation.2 c10PayloadTs c10QTs c10QTs (by decide),
   (c10_amended_mutation.2 c10PayloadTs c10QTs c10QTs (by decide)).2.2.2 (by decide)⟩
